import Mathlib

/-!
Verification development for the Foxecast inserter service: a shallow
embedding of the ingestion pipeline (database writer, parsers' record
construction, HTTP controller, broker consumer) together with theorems
checking the behavioural properties stated in the project documentation.
-/

namespace Foxecast

/-! ## Python value model

Metadata values flowing out of the decoder libraries are dynamically typed.
We model the values the code actually handles: `None`, integers and strings.
-/

/-- Dynamically-typed Python value as seen by the metadata fallback code. -/
inductive PyVal where
  | vNone
  | vInt (n : Int)
  | vStr (s : String)
deriving DecidableEq, Repr

/-- Python truthiness for the modelled values. -/
def pyTruthy : PyVal → Bool
  | PyVal.vNone => false
  | PyVal.vInt n => n != 0
  | PyVal.vStr s => !s.isEmpty

/-- Python str() for the modelled values. -/
def pyStrOf : PyVal → String
  | PyVal.vNone => "None"
  | PyVal.vInt n => toString n
  | PyVal.vStr s => s

/-- Space characters stripped by Python int(str). -/
def isSpaceChar (c : Char) : Bool :=
  c = ' ' || c = '\t' || c = '\n' || c = '\r'

/-- Strip leading and trailing whitespace from a character list. -/
def trimChars (cs : List Char) : List Char :=
  ((cs.dropWhile isSpaceChar).reverse.dropWhile isSpaceChar).reverse

/-- Decimal digits to a natural number; fails on empty or non-digit input. -/
def digitsToNat (cs : List Char) : Option Nat :=
  if cs.isEmpty then Option.none
  else cs.foldl
    (fun acc c =>
      match acc with
      | some n => if c.isDigit then some (n * 10 + (c.toNat - 48)) else Option.none
      | Option.none => Option.none)
    (some 0)

/-- Python int(str): strip whitespace, optional sign, decimal digits;
`none` models the raised ValueError. -/
def pyIntOfChars (cs : List Char) : Option Int :=
  match trimChars cs with
  | '-' :: rest => (digitsToNat rest).map (fun n => -(n : Int))
  | '+' :: rest => (digitsToNat rest).map (fun n => (n : Int))
  | rest => (digitsToNat rest).map (fun n => (n : Int))

/-- Python int(x) over the modelled dynamic values; `none` models the raised
TypeError/ValueError. -/
def pyToInt : PyVal → Option Int
  | PyVal.vInt n => some n
  | PyVal.vStr s => pyIntOfChars s.toList
  | PyVal.vNone => Option.none

/-- Does `pat` occur as a contiguous run at the head of `s`? -/
def charsStartWith : List Char → List Char → Bool
  | _, [] => true
  | [], _ :: _ => false
  | c :: cs, p :: ps => c = p && charsStartWith cs ps

/-- Does `pat` occur as a contiguous run anywhere in `s`?  Models Python's
`pat in s` and `re.search` for a literal pattern. -/
def charsContain (s pat : List Char) : Bool :=
  match s with
  | [] => pat.isEmpty
  | _ :: rest => charsStartWith s pat || charsContain rest pat

/-- Substring occurrence on strings. -/
def strContains (s pat : String) : Bool :=
  charsContain s.toList pat.toList

/-- Python `s.split(sep)` for a single-character separator. -/
def splitOnChar (c : Char) : List Char → List (List Char)
  | [] => [[]]
  | x :: xs =>
    let r := splitOnChar c xs
    if x = c then [] :: r
    else
      match r with
      | [] => [[x]]
      | h :: t => (x :: h) :: t

/-! ## Database service (src/services/db_service.py)

`DatabaseService` owns one ClickHouse connection.  We model the
forecast_data table as the list of inserted rows (each row is the 18-column
tuple built from one `ForecastDataDTO`, in particular carrying the DTO's own
`file_name` field), and the connection by the `_closed` flag. -/

/-- Python datetime value (year, month, day, hour) as used by the parsers. -/
structure PyDateTime where
  year : Nat
  month : Nat
  day : Nat
  hour : Nat
deriving DecidableEq, Repr

/-- ForecastDataDTO from src/domain/dto.py: the forecast_data row shape. -/
structure ForecastDataDTO where
  id : String
  forecast_date : PyDateTime
  forecast_hour : Int
  data_source : String
  parameter : String
  parameter_unit : String
  surface_type : String
  surface_value : Float
  min_lon : Float
  max_lon : Float
  min_lat : Float
  max_lat : Float
  lon_step : Float
  lat_step : Float
  grid_size_lat : Int
  grid_size_lon : Int
  values : List Float
  file_name : String

/-- Error raised by DatabaseService operations on a closed connection:
RuntimeError("Connection to ClickHouse is closed"). -/
inductive DBError where
  | connClosed
deriving DecidableEq, Repr

/-- State of one DatabaseService instance: the persisted forecast_data rows
and the `_closed` connection flag. -/
structure DBState where
  rows : List ForecastDataDTO
  closed : Bool

/-- Rows of forecast_data carrying the given file_name (the WHERE clause of
the existence-check query). -/
def rowsFor (s : DBState) (file_name : String) : List ForecastDataDTO :=
  s.rows.filter (fun r => r.file_name = file_name)

/-- DatabaseService.disconnect: close the connection if still active. -/
def disconnect (s : DBState) : DBState :=
  if s.closed then s else { s with closed := true }

/-- DatabaseService._already_ingested: SELECT count() ... WHERE file_name = %s,
returning count > 0; raises when the connection is closed. -/
def already_ingested (s : DBState) (file_name : String) : Except DBError Bool :=
  if s.closed then Except.error DBError.connClosed
  else Except.ok (!(rowsFor s file_name).isEmpty)

/-- DatabaseService.insert_batch: raise when closed; short-circuit with
(0, elapsed) when the file_name already exists; otherwise bulk-insert the
batch (each row the tuple of the DTO's 18 fields) and return the row count.
Elapsed milliseconds are not modelled; the returned Nat is rowsWritten.
An error result leaves the datastore untouched (no new state is produced). -/
def insert_batch (s : DBState) (dtos : List ForecastDataDTO) (file_name : String) :
    Except DBError (DBState × Nat) :=
  if s.closed then Except.error DBError.connClosed
  else
    match already_ingested s file_name with
    | Except.error e => Except.error e
    | Except.ok true => Except.ok (s, 0)
    | Except.ok false => Except.ok ({ s with rows := s.rows ++ dtos }, dtos.length)

/-- DatabaseService.clear_data: TRUNCATE TABLE forecast_data; raises when the
connection is closed. -/
def clear_data (s : DBState) : Except DBError DBState :=
  if s.closed then Except.error DBError.connClosed
  else Except.ok { s with rows := [] }

/-- Concrete record used as input in witnesses and counterexamples. -/
def sampleDTO : ForecastDataDTO :=
  { id := "r1"
    forecast_date := { year := 2025, month := 1, day := 1, hour := 0 }
    forecast_hour := 0
    data_source := "ecmwf"
    parameter := "t2m"
    parameter_unit := "K"
    surface_type := "surface"
    surface_value := 0.0
    min_lon := 0.0
    max_lon := 1.0
    min_lat := 0.0
    max_lat := 1.0
    lon_step := 1.0
    lat_step := 1.0
    grid_size_lat := 1
    grid_size_lon := 1
    values := [1.0]
    file_name := "a.grib2" }

/-! ## Source resolver (src/infrastructure/source_resolver.py) -/

/-- Python str.lower(), character by character. -/
def pyLower (s : String) : String :=
  (s.toList.map Char.toLower).asString

/-- resolve_data_source: lower-case the file name and scan an ordered table
of provider keyword patterns (each an alternation of literal substrings);
the first matching pattern's provider wins, otherwise the fallback. -/
def resolve_data_source (file_name : String) (fallback : String) : String :=
  let name := pyLower file_name
  if strContains name "ecmwf" || strContains name "era5" || strContains name "ifs" then "ecmwf"
  else if strContains name "gfs" || strContains name "noaa" then "gfs"
  else if strContains name "icon" || strContains name "dwd" then "icon"
  else fallback

/-- The provider selected by the filename-pattern table alone, `none` when no
pattern matches.  This is the claim-side reading of the ordered pattern
table, used to state the precedence property. -/
def patternProvider (file_name : String) : Option String :=
  let name := pyLower file_name
  if strContains name "ecmwf" || strContains name "era5" || strContains name "ifs" then some "ecmwf"
  else if strContains name "gfs" || strContains name "noaa" then some "gfs"
  else if strContains name "icon" || strContains name "dwd" then some "icon"
  else Option.none

/-! ## Parser service metadata fallbacks (src/services/parser_service.py)

One decoded field exposes `field.metadata(key)`, which either returns a
value or raises; `Meta` maps each key to that outcome (`Except.error ()`
models a raised lookup). -/

/-- Metadata lookup interface of one decoded earthkit field. -/
def Meta : Type := String → Except Unit PyVal

/-- The local helper `meta(key, default)` in ParserService.parse_file:
return the metadata value, or `default` when the lookup raises. -/
def metaGet (m : Meta) (key : String) (default : PyVal) : PyVal :=
  match m key with
  | Except.error _ => default
  | Except.ok v => v

/-- The stepRange branch of ParserService.parse_file: when the resolved step
is None, read "stepRange"; if it is a truthy string containing "-", parse
the part after the last dash (0 on failure), otherwise int() the raw value
(0 on failure). -/
def stepRangeStep (m : Meta) : Int :=
  let step_range := metaGet m "stepRange" PyVal.vNone
  match step_range with
  | PyVal.vStr s =>
    if !s.isEmpty && strContains s "-" then
      (pyIntOfChars ((splitOnChar '-' s.toList).getLastD [])).getD 0
    else (pyToInt (PyVal.vStr s)).getD 0
  | v => (pyToInt v).getD 0

/-- The step fallback chain of ParserService.parse_file:
step := meta("step"); if None then meta("forecastTime", 0); if still None
then the stepRange branch. -/
def stepResolved (m : Meta) : PyVal :=
  let step0 := metaGet m "step" PyVal.vNone
  let step1 := if step0 = PyVal.vNone then metaGet m "forecastTime" (PyVal.vInt 0) else step0
  if step1 = PyVal.vNone then PyVal.vInt (stepRangeStep m) else step1

/-- forecast_hour = int(step) if step is not None else 0; the int() call may
raise, failing the whole parse (`Except.error ()`). -/
def forecastHour (m : Meta) : Except Unit Int :=
  match stepResolved m with
  | PyVal.vNone => Except.ok 0
  | v =>
    match pyToInt v with
    | some n => Except.ok n
    | Option.none => Except.error ()

/-- The data_source computation of ParserService.parse_file:
source_meta = meta("centre", meta("center", meta("institution", "unknown"))). -/
def sourceMetaValue (m : Meta) : PyVal :=
  metaGet m "centre" (metaGet m "center" (metaGet m "institution" (PyVal.vStr "unknown")))

/-- data_source = str(source_meta) if source_meta else "unknown", then
resolve_data_source(file_name, fallback=data_source). -/
def parse_data_source (m : Meta) (file_name : String) : String :=
  let ds := if pyTruthy (sourceMetaValue m) then pyStrOf (sourceMetaValue m) else "unknown"
  resolve_data_source file_name ds

/-! ## Grid/value computation of each parser path

Arrays are given by their shape (the list of dimension extents) and their
row-major data.  Only the shape arithmetic and flattening of the sources are
modelled; the element type is a parameter (`Float` in the sources). -/

/-- The per-field value/grid computation of ParserService.parse_file:
1-D arrays become an (n, 1) grid; 2-D keep their shape; higher ranks are
collapsed with reshape((-1, shape[-1])).  `Except.error ()` models the
IndexError/ValueError numpy raises (0-d array, or reshape with a zero last
extent), which fails the parse. -/
def psGridValues {α : Type} (shape : List Nat) (data : List α) :
    Except Unit (Nat × Nat × List α) :=
  match shape with
  | [] => Except.error ()
  | [n] => Except.ok (n, 1, data)
  | [r, c] => Except.ok (r, c, data)
  | _ =>
    let last := shape.getLastD 0
    if last = 0 then Except.error ()
    else Except.ok (shape.dropLast.prod, last, data)

/-- The per-variable value/grid computation of GribParser.parse: variables
with fewer than 2 dimensions are skipped (`none`); otherwise values is the
FULL flatten of the array while the grid sizes come from the last two axes
only. -/
def gribGridValues {α : Type} (shape : List Nat) (data : List α) :
    Option (Nat × Nat × List α) :=
  if shape.length < 2 then Option.none
  else some (shape.getD (shape.length - 2) 0, shape.getLastD 0, data)

/-- Outcome of BufrParser.parse for one BUFR message. -/
inductive BufrOutcome (α : Type) where
  | skipped
  | gridError (msg : String)
  | record (grid_size_lat grid_size_lon : Nat) (values : List α)

/-- The grid computation of BufrParser.parse for one message: skip when no
measurement array was found or a coordinate array is empty; infer the grid
from the distinct latitudes/longitudes; raise ValueError when the value
count does not fit the inferred grid; otherwise reshape (an order-preserving
no-op on the flat data). -/
def bufrGridValues {α β : Type} [DecidableEq β]
    (lats lons : List β) (value : Option (List α)) : BufrOutcome α :=
  match value with
  | Option.none => BufrOutcome.skipped
  | some v =>
    if lats.isEmpty || lons.isEmpty then BufrOutcome.skipped
    else
      let gla := lats.dedup.length
      let glo := lons.dedup.length
      if v.length ≠ gla * glo then
        BufrOutcome.gridError "BUFR message is not a regular grid and cannot be stored in forecast_data"
      else BufrOutcome.record gla glo v

/-! ## HTTP controller (src/controllers/http.py) -/

/-- The last path segment of the request URL, used as the logical file name. -/
def fileNameOf (urlPath : String) : String :=
  ((splitOnChar '/' urlPath.toList).getLastD []).asString

/-- Success body of POST /insert. -/
structure InsertResponse where
  status : String
  file_name : String
  download_ms : Nat
  file_size_bytes : Nat
  parse_ms : Nat
  db_ms : Nat
  inserted_rows : Nat
deriving DecidableEq, Repr

/-- The insert route handler: each stage is represented by its outcome
(`Except.error msg` models the exception the stage raised).  The error side
of the result is the HTTPException (status code, detail string) the route
raises; the ok side is the 200 response body. -/
def insertRoute (urlPath : String)
    (downloader : Except String (String × Nat × Nat))
    (parseFile : String → Except String (List ForecastDataDTO × Nat))
    (dbInsert : List ForecastDataDTO → Except String (Nat × Nat)) :
    Except (Nat × String) InsertResponse :=
  let file_name := fileNameOf urlPath
  match downloader with
  | Except.error e => Except.error (400, "Download error: " ++ e)
  | Except.ok (local_path, size_bytes, download_ms) =>
    match parseFile local_path with
    | Except.error e => Except.error (500, "Parsing error: " ++ e)
    | Except.ok (dtos, parse_ms) =>
      match dbInsert dtos with
      | Except.error e => Except.error (500, "DB error: " ++ e)
      | Except.ok (inserted_rows, db_ms) =>
        Except.ok
          { status := "ok", file_name := file_name, download_ms := download_ms,
            file_size_bytes := size_bytes, parse_ms := parse_ms, db_ms := db_ms,
            inserted_rows := inserted_rows }

/-! ## Broker consumer (src/infrastructure/rabbit_consumer.py) -/

/-- JSON value, the result of json.loads on a message body. -/
inductive PyJson where
  | jNull
  | jBool (b : Bool)
  | jNum (n : Int)
  | jStr (s : String)
  | jArr (xs : List PyJson)
  | jObj (fields : List (String × PyJson))

/-- payload["file"]: a dict lookup raising KeyError when the key is absent,
TypeError when the payload is not a dict (both inside the handler's try). -/
def jsonIndex (j : PyJson) (key : String) : Except Unit PyJson :=
  match j with
  | PyJson.jObj fields =>
    match fields.lookup key with
    | some v => Except.ok v
    | Option.none => Except.error ()
  | _ => Except.error ()

/-- How the broker finalizes one delivery. -/
inductive AckOutcome where
  | acked
  | rejectedNoRequeue
  | requeued
deriving DecidableEq, Repr

/-- Result of one handle_message invocation: how the message was finalized
and whether an exception escaped the handler. -/
structure HandlerResult where
  outcome : AckOutcome
  raised : Bool
deriving DecidableEq, Repr

/-- External collaborators of handle_message: json.loads (`none` models the
raised decode error) and the download→parse→insert pipeline body
(`Except.error ()` models any exception it raises). -/
structure BrokerEnv where
  jsonLoads : String → Option PyJson
  ingest : String → Except Unit Unit

/-- handle_message from rabbit_consumer.py over the body's UTF-8 decoding
(`none` when message.body.decode("utf-8") raises, which happens before the
handler's try block).  The surrounding `message.process(requeue=False)`
context manager acknowledges on normal exit and rejects without requeue when
an exception escapes the block (aio_pika ProcessContext semantics); the
result records both the finalization and whether the handler raised. -/
def handle_message (env : BrokerEnv) (decodedBody : Option String) : HandlerResult :=
  match decodedBody with
  | Option.none => { outcome := AckOutcome.rejectedNoRequeue, raised := true }
  | some body =>
    match env.jsonLoads body with
    | Option.none => { outcome := AckOutcome.acked, raised := false }
    | some payload =>
      match jsonIndex payload "file" with
      | Except.error _ => { outcome := AckOutcome.acked, raised := false }
      | Except.ok (PyJson.jStr url) =>
        match env.ingest url with
        | Except.error _ => { outcome := AckOutcome.acked, raised := false }
        | Except.ok _ => { outcome := AckOutcome.acked, raised := false }
      | Except.ok _ => { outcome := AckOutcome.rejectedNoRequeue, raised := true }

/-- Connection-level events seen by run_consumer's while-loop. -/
inductive BrokerEvent where
  | connectFail
  | connectOk
deriving DecidableEq, Repr

/-- backoff_seconds = min(backoff_seconds * 2, 30), the update after a
failed iteration of run_consumer. -/
def backoffNext (b : Nat) : Nat := min (b * 2) 30

/-- One iteration of run_consumer over the backoff variable: a connection
failure sleeps for the current backoff then doubles it (capped at 30); a
successful subscribe performs no sleep and resets the backoff to 1. -/
def consumerIteration (b : Nat) : BrokerEvent → Option Nat × Nat
  | BrokerEvent.connectFail => (some b, backoffNext b)
  | BrokerEvent.connectOk => (Option.none, 1)

/-- The sleeps performed by `n` consecutive failed iterations starting from
backoff value `b`. -/
def backoffSleeps : Nat → Nat → List Nat
  | _, 0 => []
  | b, n + 1 => b :: backoffSleeps (backoffNext b) n

/-! ## Format dispatcher (spec §4.1) -/

/-- Known file-format kinds. -/
inductive FormatKind where
  | grib
  | bufr
deriving DecidableEq, Repr

/-- Result of format detection. -/
inductive Detection where
  | known (k : FormatKind)
  | unknownFormat
deriving DecidableEq, Repr

/-- Modelled from the spec: the Format Dispatcher of §4.1 is not present in
the source tree (ParserService.parse_file hands the local file straight to
the external earthkit decoder), so its extension allow-list is modelled from
the spec's words: a file-extension allow-list mapped to known kinds. -/
def extensionKind (ext : Option String) : Option FormatKind :=
  match ext with
  | Option.none => Option.none
  | some e =>
    if e = ".grib" || e = ".grib2" || e = ".grb" || e = ".grb2" then some FormatKind.grib
    else if e = ".bufr" then some FormatKind.bufr
    else Option.none

/-- Modelled from the spec: the magic-signature table of the missing Format
Dispatcher — the file's first 4 bytes matched against each format's magic
signature ("GRIB" for GRIB, "BUFR" for BUFR). -/
def magicKind (first4 : String) : Option FormatKind :=
  if first4 = "GRIB" then some FormatKind.grib
  else if first4 = "BUFR" then some FormatKind.bufr
  else Option.none

/-- Modelled from the spec: detect(path) -> FormatKind | UnknownFormat.
Detection order: (a) the extension allow-list, (b) when the extension is
absent or unrecognized, the first 4 bytes against each magic signature;
UnknownFormat when neither matches — a terminal classification, not an
exception. -/
def detect (ext : Option String) (first4 : String) : Detection :=
  match extensionKind ext with
  | some k => Detection.known k
  | Option.none =>
    match magicKind first4 with
    | some k => Detection.known k
    | Option.none => Detection.unknownFormat

/-! # Theorems -/

/-! ## Database writer: dedup, fail-fast, exact counts -/

/-- Computation of insert_batch on an open connection when the file name is
already present: the dedup short-circuit. -/
theorem insert_batch_dedup (s : DBState) (dtos : List ForecastDataDTO) (f : String)
    (hc : s.closed = false) (hi : (rowsFor s f).isEmpty = false) :
    insert_batch s dtos f = Except.ok (s, 0) := by
  simp [insert_batch, already_ingested, hc, hi]

/-- Computation of insert_batch on an open connection when the file name is
not yet present: the write path. -/
theorem insert_batch_write (s : DBState) (dtos : List ForecastDataDTO) (f : String)
    (hc : s.closed = false) (hi : (rowsFor s f).isEmpty = true) :
    insert_batch s dtos f =
      Except.ok ({ s with rows := s.rows ++ dtos }, dtos.length) := by
  simp [insert_batch, already_ingested, hc, hi]

/-- C1 counterexample: a first insert_batch call that writes an EMPTY batch
for a fresh fileName leaves no row carrying that name, so a subsequent call
with the same fileName is not a no-op: it writes its records and returns
rowsWritten = 1 ≠ 0, contradicting the claim for that input. -/
theorem insert_batch_not_idempotent_after_empty_batch :
    insert_batch { rows := [], closed := false } ([] : List ForecastDataDTO) "a.grib2" =
      Except.ok ({ rows := [], closed := false }, 0) ∧
    insert_batch { rows := [], closed := false } [sampleDTO] "a.grib2" =
      Except.ok ({ rows := [sampleDTO], closed := false }, 1) ∧
    (1 : Nat) ≠ 0 :=
  ⟨rfl, rfl, one_ne_zero⟩

/-- C1 (amended): once a call to insert_batch has completed for a fileName
with a batch containing at least one record whose file_name field equals
that fileName, every subsequent insert_batch call with that fileName —
whatever records it passes — returns rowsWritten = 0, performs no insert,
and leaves the datastore state (hence the set of rows carrying that
fileName) unchanged. -/
theorem insert_batch_idempotent (s s1 : DBState) (dtos dtos2 : List ForecastDataDTO)
    (f : String) (n : Nat)
    (h1 : insert_batch s dtos f = Except.ok (s1, n))
    (hmem : ∃ d ∈ dtos, d.file_name = f) :
    insert_batch s1 dtos2 f = Except.ok (s1, 0) := by
  obtain ⟨d, hd, hdf⟩ := hmem
  cases hc : s.closed with
  | true => simp [insert_batch, hc] at h1
  | false =>
    cases hi : (rowsFor s f).isEmpty with
    | false =>
      rw [insert_batch_dedup s dtos f hc hi] at h1
      obtain ⟨hs1, -⟩ := by simpa using h1
      subst hs1
      exact insert_batch_dedup s dtos2 f hc hi
    | true =>
      rw [insert_batch_write s dtos f hc hi] at h1
      obtain ⟨hs1, -⟩ := by simpa using h1
      subst hs1
      have hfil : d ∈ (s.rows ++ dtos).filter (fun r => r.file_name = f) := by
        rw [List.mem_filter]
        exact ⟨List.mem_append_right _ hd, by simp [hdf]⟩
      have hne : (rowsFor { s with rows := s.rows ++ dtos } f).isEmpty = false := by
        rw [List.isEmpty_eq_false]
        exact List.ne_nil_of_mem hfil
      exact insert_batch_dedup _ dtos2 f hc hne

/-- Witness for the amended C1 at a concrete state and batch. -/
theorem insert_batch_idempotent_witness :
    insert_batch { rows := [sampleDTO], closed := false } [sampleDTO] "a.grib2" =
      Except.ok ({ rows := [sampleDTO], closed := false }, 0) :=
  insert_batch_idempotent { rows := [], closed := false }
    { rows := [sampleDTO], closed := false } [sampleDTO] [sampleDTO] "a.grib2" 1 rfl
    ⟨sampleDTO, List.mem_singleton.mpr rfl, rfl⟩

/-- C7: after disconnect, every DatabaseService operation — insert_batch,
the existence check and clear_data — fails at once with the distinct
connection-closed error; no reconnection happens and no result state is
produced, so the datastore is unchanged. -/
theorem db_closed_fail_fast (s : DBState) (dtos : List ForecastDataDTO) (f : String) :
    (disconnect s).closed = true ∧
    insert_batch (disconnect s) dtos f = Except.error DBError.connClosed ∧
    already_ingested (disconnect s) f = Except.error DBError.connClosed ∧
    clear_data (disconnect s) = Except.error DBError.connClosed := by
  have h : (disconnect s).closed = true := by
    unfold disconnect
    cases hc : s.closed <;> simp [hc]
  refine ⟨h, ?_, ?_, ?_⟩ <;> simp [insert_batch, already_ingested, clear_data, h]

/-- C10: on an open connection with no persisted row carrying fileName,
insert_batch writes the batch and returns exactly the number of input
records; for the empty collection it returns 0 and adds no row, so the
file is not marked ingested and a later call with the same fileName still
passes the existence check and writes its batch. -/
theorem insert_batch_fresh_exact_count (s : DBState)
    (dtos dtos2 : List ForecastDataDTO) (f : String)
    (hopen : s.closed = false) (hfresh : rowsFor s f = []) :
    insert_batch s dtos f =
      Except.ok ({ s with rows := s.rows ++ dtos }, dtos.length) ∧
    insert_batch s [] f = Except.ok ({ s with rows := s.rows ++ [] }, 0) ∧
    rowsFor { s with rows := s.rows ++ ([] : List ForecastDataDTO) } f = [] ∧
    insert_batch { s with rows := s.rows ++ ([] : List ForecastDataDTO) } dtos2 f =
      Except.ok ({ rows := (s.rows ++ []) ++ dtos2, closed := s.closed }, dtos2.length) := by
  have hie : (rowsFor s f).isEmpty = true := by simp [hfresh]
  have hfresh2 : rowsFor { s with rows := s.rows ++ ([] : List ForecastDataDTO) } f = [] := by
    simp only [rowsFor] at hfresh ⊢
    simp [List.filter_append, hfresh]
  refine ⟨insert_batch_write s dtos f hopen hie, insert_batch_write s [] f hopen hie,
    hfresh2, ?_⟩
  have hie2 : (rowsFor { s with rows := s.rows ++ ([] : List ForecastDataDTO) } f).isEmpty
      = true := by rw [hfresh2]; rfl
  exact insert_batch_write _ dtos2 f hopen hie2

/-- Witness for C10 at a concrete fresh state. -/
theorem insert_batch_fresh_exact_count_witness :
    insert_batch { rows := [], closed := false } [sampleDTO] "a.grib2" =
      Except.ok ({ rows := [sampleDTO], closed := false }, 1) :=
  (insert_batch_fresh_exact_count { rows := [], closed := false }
    [sampleDTO] [] "a.grib2" rfl rfl).1

/-! ## Broker consumer backoff -/

/-- Sleep sequence of consecutive failed connection attempts: the i-th sleep
(0-based) starting from backoff b ≤ 30 is min(2^i * b, 30). -/
theorem backoffSleeps_get (n : Nat) : ∀ b i : Nat, b ≤ 30 → i < n →
    (backoffSleeps b n)[i]? = some (min (2 ^ i * b) 30) := by
  induction n with
  | zero => intro b i _ hi; omega
  | succ n ih =>
    intro b i hb hi
    cases i with
    | zero =>
      simp [backoffSleeps]
      omega
    | succ i =>
      have hb' : backoffNext b ≤ 30 := by unfold backoffNext; omega
      have hi' : i < n := by omega
      simp only [backoffSleeps, List.getElem?_cons_succ]
      rw [ih (backoffNext b) i hb' hi']
      congr 1
      unfold backoffNext
      by_cases h : b * 2 ≤ 30
      · rw [Nat.min_eq_left h]
        have he : 2 ^ i * (b * 2) = 2 ^ (i + 1) * b := by ring
        rw [he]
      · have h30 : min (b * 2) 30 = 30 := by omega
        rw [h30]
        have hp : (1 : Nat) ≤ 2 ^ i := Nat.one_le_two_pow
        have h1 : (30 : Nat) ≤ 2 ^ i * 30 := le_mul_of_one_le_left (by omega) hp
        have he : 2 ^ (i + 1) * b = 2 ^ i * (b * 2) := by ring
        have h2 : (30 : Nat) ≤ 2 ^ (i + 1) * b := by
          rw [he]
          calc (30 : Nat) ≤ b * 2 := by omega
            _ ≤ 2 ^ i * (b * 2) := le_mul_of_one_le_left (by omega) hp
        rw [Nat.min_eq_right h1, Nat.min_eq_right h2]

/-- C4: starting from a fresh start (backoff 1) or right after a successful
connection (which resets backoff to 1 and sleeps nothing), the sleep
performed before retry N — the (N-1)-th element of the failure-sleep
sequence — is exactly min(2^(N-1), 30) seconds, and a failed iteration
sleeps the current backoff value. -/
theorem consumer_backoff (b n i : Nat) (hi : i < n) :
    (backoffSleeps 1 n)[i]? = some (min (2 ^ i) 30) ∧
    (consumerIteration b BrokerEvent.connectOk).2 = 1 ∧
    (consumerIteration b BrokerEvent.connectOk).1 = Option.none ∧
    backoffSleeps (consumerIteration b BrokerEvent.connectOk).2 n = backoffSleeps 1 n ∧
    (consumerIteration b BrokerEvent.connectFail).1 = some b := by
  refine ⟨?_, rfl, rfl, rfl, rfl⟩
  have h := backoffSleeps_get n 1 i (by omega) hi
  simpa using h

/-- Witness for C4: the sixth retry after five failures from a reset
backoff waits min(2^5, 30) = 30 seconds. -/
theorem consumer_backoff_witness :
    (backoffSleeps 1 6)[5]? = some (min (2 ^ 5) 30) ∧
    (consumerIteration 7 BrokerEvent.connectOk).2 = 1 ∧
    (consumerIteration 7 BrokerEvent.connectOk).1 = Option.none ∧
    backoffSleeps (consumerIteration 7 BrokerEvent.connectOk).2 6 = backoffSleeps 1 6 ∧
    (consumerIteration 7 BrokerEvent.connectFail).1 = some 7 :=
  consumer_backoff 7 6 5 (by omega)

/-! ## Source-resolution precedence -/

/-- resolve_data_source agrees with the pattern table: the first matching
pattern's provider, else the fallback. -/
theorem resolve_eq_pattern (fn fb : String) :
    resolve_data_source fn fb = (patternProvider fn).getD fb := by
  unfold resolve_data_source patternProvider
  dsimp only
  split_ifs <;> rfl

/-- C5: the filename-pattern heuristic overrides decoder metadata: when a
pattern matches, data_source is that pattern's provider whatever the
metadata says; when no pattern matches, data_source is the decoder metadata
value (the centre key here); when the metadata chain is absent too, it is
"unknown". -/
theorem source_resolution_precedence (m : Meta) (fn : String) :
    (∀ src, patternProvider fn = some src → parse_data_source m fn = src) ∧
    (patternProvider fn = Option.none → ∀ s, s ≠ "" →
      m "centre" = Except.ok (PyVal.vStr s) → parse_data_source m fn = s) ∧
    (patternProvider fn = Option.none →
      m "centre" = Except.error () → m "center" = Except.error () →
      m "institution" = Except.error () → parse_data_source m fn = "unknown") := by
  refine ⟨?_, ?_, ?_⟩
  · intro src h
    unfold parse_data_source
    rw [resolve_eq_pattern, h]
    rfl
  · intro h s hs hc
    have hse : s.isEmpty = false := by
      cases hh : s.isEmpty with
      | false => rfl
      | true => exact absurd ((String.isEmpty_iff s).mp hh) hs
    unfold parse_data_source
    rw [resolve_eq_pattern, h]
    simp [sourceMetaValue, metaGet, hc, pyTruthy, pyStrOf, hse]
  · intro h hc hc2 hc3
    unfold parse_data_source
    rw [resolve_eq_pattern, h]
    simp [sourceMetaValue, metaGet, hc, hc2, hc3, pyTruthy, pyStrOf]

/-- Metadata environment whose every lookup raises. -/
def mNoMeta : Meta := fun _ => Except.error ()

/-- Witness for C5: a filename containing the ifs keyword resolves to ecmwf
even though every metadata lookup fails. -/
theorem source_resolution_precedence_witness :
    parse_data_source mNoMeta "run_IFS_0p25.grib2" = "ecmwf" :=
  (source_resolution_precedence mNoMeta "run_IFS_0p25.grib2").1 "ecmwf" (by decide)

/-! ## Forecast-offset fallback chain -/

/-- Metadata environment where only stepRange is present, with value "0-6";
the step and forecastTime lookups raise, as earthkit does for missing keys. -/
def mStepRangeOnly : Meta :=
  fun k => if k = "stepRange" then Except.ok (PyVal.vStr "0-6") else Except.error ()

/-- C8 counterexample: with the step and forecast-time lookups both raising
(the decoder's behaviour for absent keys) and stepRange present as "0-6",
the claim requires forecast_hour = 6 (the value after the dash), but the
code takes the default 0 supplied to the forecast-time lookup and never
consults the range expression: forecast_hour = 0. -/
theorem forecast_fallback_skips_range_on_absent_alias :
    forecastHour mStepRangeOnly = Except.ok 0 ∧ (0 : Int) ≠ 6 :=
  ⟨rfl, by omega⟩

/-- C8 (amended): forecast_hour resolution tries the explicit step field
first; when that is absent or null, the forecast-time alias — whose lookup
failure yields 0 directly, ending the chain; the range-expression "a-b"
(taking the value after the last dash) is consulted only when the
forecast-time lookup returns an explicit null value; 0 is the final
default. -/
theorem forecastHour_fallback (m : Meta) :
    (∀ k : Int, m "step" = Except.ok (PyVal.vInt k) → forecastHour m = Except.ok k) ∧
    (metaGet m "step" PyVal.vNone = PyVal.vNone →
      ∀ k : Int, m "forecastTime" = Except.ok (PyVal.vInt k) →
        forecastHour m = Except.ok k) ∧
    (metaGet m "step" PyVal.vNone = PyVal.vNone →
      m "forecastTime" = Except.error () → forecastHour m = Except.ok 0) ∧
    (metaGet m "step" PyVal.vNone = PyVal.vNone →
      m "forecastTime" = Except.ok PyVal.vNone →
      ∀ (s : String) (k : Int), m "stepRange" = Except.ok (PyVal.vStr s) →
        s.isEmpty = false → strContains s "-" = true →
        pyIntOfChars ((splitOnChar '-' s.toList).getLastD []) = some k →
        forecastHour m = Except.ok k) := by
  refine ⟨?_, ?_, ?_, ?_⟩
  · intro k h
    simp [forecastHour, stepResolved, metaGet, h, pyToInt]
  · intro habs k h
    simp only [forecastHour, stepResolved, habs]
    simp [metaGet, h, pyToInt]
  · intro habs h
    simp only [forecastHour, stepResolved, habs]
    simp [metaGet, h, pyToInt]
  · intro habs hft s k hsr hse hdash hparse
    rw [List.getLastD_eq_getLast?] at hparse
    simp only [String.toList] at hparse
    simp only [forecastHour, stepResolved, habs]
    simp [metaGet, hft, stepRangeStep, hsr, hse, hdash, hparse, pyToInt]

/-- Metadata environment where forecastTime returns an explicit null and
stepRange is "0-6". -/
def mStepNullRange : Meta := fun k =>
  if k = "forecastTime" then Except.ok PyVal.vNone
  else if k = "stepRange" then Except.ok (PyVal.vStr "0-6") else Except.error ()

/-- Witness for the amended C8: with step absent, forecastTime null and
stepRange = "0-6", forecast_hour is 6. -/
theorem forecastHour_fallback_witness : forecastHour mStepNullRange = Except.ok 6 :=
  (forecastHour_fallback mStepNullRange).2.2.2 rfl rfl "0-6" 6 rfl rfl rfl rfl

/-! ## Grid-shape invariant -/

/-- Product of a nonempty list splits as the product of its dropLast times
its last element. -/
theorem prod_dropLast_mul_getLast (l : List Nat) (hne : l ≠ []) :
    l.dropLast.prod * ((l.getLast?).getD 0) = l.prod := by
  induction l with
  | nil => exact absurd rfl hne
  | cons a t ih =>
    cases t with
    | nil => simp
    | cons b t2 =>
      have key := ih (by simp)
      simp only [List.dropLast_cons₂, List.getLast?_cons_cons, List.prod_cons]
      rw [mul_assoc]
      simp only [List.prod_cons] at key
      rw [key]

/-- The earthkit path of ParserService.parse_file keeps the invariant: a
record it emits has values length = grid_size_lat * grid_size_lon. -/
theorem psGridValues_invariant {α : Type} (shape : List Nat) (data : List α)
    (h : data.length = shape.prod) (la lo : Nat) (vals : List α)
    (hres : psGridValues shape data = Except.ok (la, lo, vals)) :
    vals.length = la * lo := by
  match shape with
  | [] => simp [psGridValues] at hres
  | [n] =>
    simp only [psGridValues] at hres
    obtain ⟨h1, h2, h3⟩ := by simpa using hres
    subst h1; subst h2; subst h3
    simpa using h
  | [r, c] =>
    simp only [psGridValues] at hres
    obtain ⟨h1, h2, h3⟩ := by simpa using hres
    subst h1; subst h2; subst h3
    simpa using h
  | a :: b :: c :: t =>
    simp only [psGridValues] at hres
    by_cases hz : (a :: b :: c :: t).getLastD 0 = 0
    · rw [if_pos hz] at hres
      simp at hres
    · rw [if_neg hz] at hres
      obtain ⟨h1, h2, h3⟩ := by simpa using hres
      subst h1; subst h2; subst h3
      have key := prod_dropLast_mul_getLast (a :: b :: c :: t) (by simp)
      rw [h, ← key]
      simp only [List.dropLast_cons₂, List.getLast?_cons_cons, List.prod_cons]

/-- The BUFR path keeps the invariant by construction: a record it emits
has values length = grid_size_lat * grid_size_lon, and a value count that
does not fit the inferred grid is a hard error. -/
theorem bufrGridValues_invariant {α β : Type} [DecidableEq β]
    (lats lons : List β) (value : Option (List α)) (gla glo : Nat) (vals : List α)
    (hres : bufrGridValues lats lons value = BufrOutcome.record gla glo vals) :
    vals.length = gla * glo := by
  match value with
  | Option.none => simp [bufrGridValues] at hres
  | some v =>
    simp only [bufrGridValues] at hres
    by_cases he : lats.isEmpty || lons.isEmpty
    · simp [he] at hres
    · rw [if_neg he] at hres
      by_cases hfit : v.length ≠ lats.dedup.length * lons.dedup.length
      · simp [hfit] at hres
      · rw [if_neg hfit] at hres
        obtain ⟨h1, h2, h3⟩ := by simpa using hres
        subst h1; subst h2; subst h3
        omega

/-- C2 (code bug): GribParser.parse on a 3-D data variable — shape
(2, 2, 2), e.g. an extra level or time axis — emits a record whose values
list is the FULL flatten (length 8) while the grid sizes come from the last
two axes only (2 × 2 = 4), violating the invariant
len(values) = grid_size_lat * grid_size_lon instead of failing the parse. -/
theorem gribParser_violates_grid_invariant :
    gribGridValues [2, 2, 2] ([0, 1, 2, 3, 4, 5, 6, 7] : List Int) =
      some (2, 2, ([0, 1, 2, 3, 4, 5, 6, 7] : List Int)) ∧
    ([0, 1, 2, 3, 4, 5, 6, 7] : List Int).length = 2 * 2 * 2 ∧
    ([0, 1, 2, 3, 4, 5, 6, 7] : List Int).length ≠ 2 * 2 :=
  ⟨rfl, rfl, by decide⟩

/-! ## HTTP failure classification -/

/-- C3 (code bug): the insert route answers a download-stage failure with
400, but a parse-stage failure with 500 — not the 400 the claim, the spec
and the route's own docstring require — and a datastore failure with 500. -/
theorem insertRoute_parse_error_gets_500 :
    insertRoute "/f/x.grib2" (Except.error "connect timeout")
        (fun _ => Except.error "boom") (fun _ => Except.ok (0, 0)) =
      Except.error (400, "Download error: connect timeout") ∧
    insertRoute "/f/x.grib2" (Except.ok ("/tmp/x", 10, 5))
        (fun _ => Except.error "boom") (fun _ => Except.ok (0, 0)) =
      Except.error (500, "Parsing error: boom") ∧
    insertRoute "/f/x.grib2" (Except.ok ("/tmp/x", 10, 5))
        (fun _ => Except.ok ([], 3)) (fun _ => Except.error "refused") =
      Except.error (500, "DB error: refused") ∧
    (500 : Nat) ≠ 400 :=
  ⟨rfl, rfl, rfl, by omega⟩

/-! ## Poison-message isolation -/

/-- Broker environment whose json decoder always succeeds with a well-formed
payload and whose pipeline succeeds. -/
def happyEnv : BrokerEnv :=
  { jsonLoads := fun _ => some (PyJson.jObj [("file", PyJson.jStr "http://x/f.grib2")])
    ingest := fun _ => Except.ok () }

/-- C6 counterexample: a body that is not valid UTF-8 (e.g. the single byte
0xFF) — hence not valid JSON — raises UnicodeDecodeError before the
handler's try block, so the process context manager rejects the message
without requeue instead of acknowledging it, and the handler does not
return normally, contradicting the claim for that input. -/
theorem handle_message_rejects_non_utf8_body :
    handle_message happyEnv Option.none =
      { outcome := AckOutcome.rejectedNoRequeue, raised := true } ∧
    ({ outcome := AckOutcome.rejectedNoRequeue, raised := true } : HandlerResult) ≠
      { outcome := AckOutcome.acked, raised := false } :=
  ⟨rfl, by decide⟩

/-- C6 (amended): a message whose body decodes as UTF-8 text that is not
valid JSON, or lacks the "file" field (or indexes a non-dict payload), or
whose pipeline run raises any error, is acknowledged without requeueing and
the handler returns normally; and no path of the handler ever requeues a
message, so the consumer loop keeps draining the queue. -/
theorem handle_message_poison_isolation (env : BrokerEnv) (body : String) :
    (env.jsonLoads body = Option.none →
      handle_message env (some body) = { outcome := AckOutcome.acked, raised := false }) ∧
    (∀ payload, env.jsonLoads body = some payload →
      jsonIndex payload "file" = Except.error () →
      handle_message env (some body) = { outcome := AckOutcome.acked, raised := false }) ∧
    (∀ payload url, env.jsonLoads body = some payload →
      jsonIndex payload "file" = Except.ok (PyJson.jStr url) →
      handle_message env (some body) = { outcome := AckOutcome.acked, raised := false }) ∧
    (∀ decoded, (handle_message env decoded).outcome ≠ AckOutcome.requeued) := by
  refine ⟨?_, ?_, ?_, ?_⟩
  · intro h
    simp [handle_message, h]
  · intro payload hj hx
    simp [handle_message, hj, hx]
  · intro payload url hj hx
    cases hv : env.ingest url <;> simp [handle_message, hj, hx, hv]
  · intro decoded
    cases decoded with
    | none => simp [handle_message]
    | some b =>
      cases hj : env.jsonLoads b with
      | none => simp [handle_message, hj]
      | some p =>
        cases hx : jsonIndex p "file" with
        | error e => simp [handle_message, hj, hx]
        | ok v =>
          cases v <;> simp [handle_message, hj, hx]
          case jStr url => cases hv : env.ingest url <;> simp [hv]

/-- Witness for the amended C6: a well-formed message through happyEnv is
acknowledged and the handler returns normally. -/
theorem handle_message_poison_isolation_witness :
    handle_message happyEnv (some "anybody") =
      { outcome := AckOutcome.acked, raised := false } :=
  (handle_message_poison_isolation happyEnv "anybody").2.2.1
    (PyJson.jObj [("file", PyJson.jStr "http://x/f.grib2")]) "http://x/f.grib2" rfl rfl

/-! ## Format dispatcher fail-closed -/

/-- C9: format detection is fail-closed: the result is UnknownFormat exactly
when the extension matches no allow-list entry and the first 4 bytes match
no magic signature; a recognized extension wins regardless of the bytes,
and the magic signature is consulted only for absent or unrecognized
extensions. -/
theorem detect_fail_closed (ext : Option String) (first4 : String) :
    (detect ext first4 = Detection.unknownFormat ↔
      extensionKind ext = Option.none ∧ magicKind first4 = Option.none) ∧
    (∀ k, extensionKind ext = some k → detect ext first4 = Detection.known k) ∧
    (∀ k, extensionKind ext = Option.none → magicKind first4 = some k →
      detect ext first4 = Detection.known k) := by
  cases hek : extensionKind ext with
  | some k => simp [detect, hek]
  | none =>
    cases hmk : magicKind first4 with
    | some k => simp [detect, hek, hmk]
    | none => simp [detect, hek, hmk]

/-- Witness for C9: an unrecognized extension with unrecognized magic bytes
is classified UnknownFormat. -/
theorem detect_fail_closed_witness :
    detect (some ".xyz") "XXXX" = Detection.unknownFormat :=
  (detect_fail_closed (some ".xyz") "XXXX").1.mpr ⟨rfl, rfl⟩

end Foxecast
